import Mathlib

/-!
Shallow embedding of `src/www/browser/Media.js` (cordova-plugin-media, browser
platform). The file models the per-instance `Media` controller state, the
mode/state machine, the synchronous part of every public operation, and the
asynchronous encoder/load continuations as explicit state-passing functions.
Native collaborators (the audio element, `MediaRecorder`, `getUserMedia`,
the `cordova-plugin-file` filesystem) are represented by an environment
record and by an explicit list of emitted effects, so that every status
notification and native call of the source is an observable value.
-/

namespace Media

/-- Truthiness domain of the JS variable `useMimeType` / field
`_recordFileMime` in `startRecord`: it holds `undefined`, the literal
`false`, or a mime string. -/
inductive MimeVal
  | undef
  | fls
  | str (s : String)
  deriving DecidableEq, Repr

/-- JS value shapes relevant to the `options.fileFallback` property:
`undefined` (absent property), a boolean, a string or a number. Truthiness
follows JS rules. -/
inductive JSVal
  | undef
  | boolean (b : Bool)
  | string (s : String)
  | number (n : Int)
  deriving DecidableEq, Repr

/-- JS truthiness of a `JSVal`. -/
def truthy : JSVal → Bool
  | .undef => false
  | .boolean b => b
  | .string s => s ≠ ""
  | .number n => n ≠ 0

/-- The `options` argument of `startRecord(options)`: omitted/`undefined`,
a non-object value (string, number, boolean, function), or an object whose
`fileFallback` property has the given value (`JSVal.undef` when absent).
`null` (whose property access would throw) is outside the documented call
shapes and is not modelled. -/
inductive JSOptions
  | undef
  | nonObject
  | obj (fileFallback : JSVal)
  deriving DecidableEq, Repr

/-- Status notifications delivered through `Media.onStatus` (message kinds
`MEDIA_STATE`, `MEDIA_DURATION`, `MEDIA_POSITION`, `MEDIA_ERROR`). An error
carries a numeric code and an optional message, as built by
`sendErrorStatus`. -/
inductive Notif
  | stateChange (s : Nat)
  | durationUpd (d : Int)
  | positionUpd (p : Int)
  | err (code : Nat) (message : Option String)
  deriving DecidableEq, Repr

/-- Observable effects of an operation: a status notification, a console
log, or a call into a native collaborator (audio node, recorder, stream
tracks, filesystem). `jsThrow` marks a spot where the source would raise a
runtime `TypeError`. -/
inductive Eff
  | notif (n : Notif)
  | consoleError (msg : String)
  | consoleWarn (msg : String)
  | nodePause
  | nodeLoad
  | nodePlay
  | nodeSetTime (t : Int)
  | getUserMedia
  | recStart
  | recResume
  | recPause
  | recStop
  | trackStop (idx : Nat)
  | createObjectURL
  | fsRequest (temporary : Bool) (fileName : String)
  | jsThrow (msg : String)
  deriving DecidableEq, Repr

/-- Whether an effect is a status notification (an `Media.onStatus` call). -/
def Eff.isNotif : Eff → Bool
  | .notif _ => true
  | _ => false

/-- The playback `Audio` node: assigned `src` attribute, current time and
paused flag. -/
structure NodeState where
  nsrc : String
  currentTime : Int
  paused : Bool
  deriving DecidableEq, Repr

/-- The native `MediaRecorder` handle; `rstate` mirrors its `state`
property (`"recording"`, `"paused"` or `"inactive"`). -/
structure RecState where
  rstate : String
  deriving DecidableEq, Repr

/-- Mutable per-instance fields of a `Media` controller (the `this.…`
fields of the constructor plus `_recordFileMime`, which `startRecord`
creates on first use). `durationProp` models the `media.duration = -1`
assignment in `readyPlayer` (a property distinct from `_duration`, read
nowhere). -/
structure MediaState where
  mode : Nat
  state : Nat
  src : String
  node : Option NodeState
  recorder : Option RecState
  _duration : Int
  _position : Int
  _recordFileMime : MimeVal
  durationProp : Option Int
  deriving DecidableEq, Repr

/-- The well-known directory roots of `cordova-plugin-file`
(`fileSystemPaths.file`). -/
structure FSPaths where
  applicationDirectory : String
  cacheDirectory : String
  dataDirectory : String
  deriving DecidableEq, Repr

/-- Platform environment consulted by `startRecord`: presence of
`navigator.mediaDevices.getUserMedia`, availability of the
`cordova-plugin-file` paths (both `webkit` window features and a working
`require`), and `MediaRecorder.isTypeSupported`. -/
structure Env where
  baseRecordSupport : Bool
  fileSystemPaths : Option FSPaths
  isTypeSupported : String → Bool

/-- Platform environment consulted by the playback path: whether
`new Audio()` succeeds, whether the filesystem plugin check of
`loadAudioFile` passes (`none`) or throws with a message, the outcome of
`resolveLocalFileSystemURL`, and the clock used for the cache-busting
query. -/
structure PlayEnv where
  createNodeOk : Bool
  fsCheck : Option String
  resolveLocal : Except String String
  now : Nat

-- Media modes (source constants).
def MODE_NONE : Nat := 0
def MODE_PLAY : Nat := 1
def MODE_RECORD : Nat := 2

-- Media states (source constants).
def MEDIA_NONE : Nat := 0
def MEDIA_STARTING : Nat := 1
def MEDIA_RUNNING : Nat := 2
def MEDIA_PAUSED : Nat := 3
def MEDIA_STOPPED : Nat := 4

/-- Modelled from the spec: the `MediaError` global referenced by
`src/www/browser/Media.js` is supplied by a plugin file outside `src/`;
the spec names its two relevant members `NoneActiveError` and
`AbortedError`. Only their distinctness matters to the theorems below; the
numeric values follow the cordova convention. -/
def MEDIA_ERR_NONE_ACTIVE : Nat := 0

/-- Modelled from the spec: see `MEDIA_ERR_NONE_ACTIVE`. -/
def MEDIA_ERR_ABORTED : Nat := 1

/-- The effect of `sendErrorStatus(id, code, message)`: an error
notification through `Media.onStatus`. -/
def sendErrorStatus (code : Nat) (message : Option String) : Eff :=
  Eff.notif (Notif.err code message)

/-- Controller fields as initialised by the `Media` constructor (identifier
and callback registration are handled by the registry, modelled
separately). -/
def mkMedia (src : String) : MediaState :=
  { mode := MODE_NONE
    state := MEDIA_NONE
    src := src
    node := none
    recorder := none
    _duration := -1
    _position := -1
    _recordFileMime := .undef
    durationProp := none }

/-- First occurrence of `pat` inside `s`, as the pieces before and after
it (`s = before ++ pat ++ after`); `none` when `pat` does not occur. An
empty `pat` matches at the start, as in JS. -/
def splitAtSub (s pat : List Char) : Option (List Char × List Char) :=
  if pat.isPrefixOf s then some ([], s.drop pat.length)
  else
    match s with
    | [] => none
    | c :: rest => (splitAtSub rest pat).map (fun p => (c :: p.1, p.2))

/-- JS `s.replace(pat, rep)` with a string pattern: replaces the first
occurrence only, returns `s` unchanged when absent. -/
def jsReplaceFirst (s pat rep : String) : String :=
  match splitAtSub s.toList pat.toList with
  | some p => ⟨p.1 ++ rep.toList ++ p.2⟩
  | none => s

/-- JS `s.indexOf(sub) !== -1`. -/
def jsIncludes (s sub : String) : Bool :=
  (splitAtSub s.toList sub.toList).isSome

/-- JS `s.replace(/[?#].*$/, '')`: drops everything from the first `?` or
`#` on (URLs contain no line terminators, so the regex dot restriction is
immaterial). -/
def stripQueryHash (s : String) : String :=
  ⟨s.toList.takeWhile (fun c => c ≠ '?' ∧ c ≠ '#')⟩

/-- JS `s.startsWith(p)` / `s.substr(0, n) === p`. -/
def jsStartsWith (s p : String) : Bool :=
  p.toList.isPrefixOf s.toList

/-- Splits a character list on a separator; an empty list yields one empty
segment, matching JS `''.split(sep) === ['']`. -/
def splitOnCharAux (sep : Char) : List Char → List Char → List (List Char)
  | [], acc => [acc.reverse]
  | c :: rest, acc =>
    if c = sep then acc.reverse :: splitOnCharAux sep rest []
    else splitOnCharAux sep rest (c :: acc)

/-- JS `s.split(sep)` for a one-character separator. -/
def jsSplitChar (s : String) (sep : Char) : List String :=
  (splitOnCharAux sep s.toList []).map fun cs => ⟨cs⟩

/-- JS `s.toLowerCase()` (over the ASCII range exercised here). -/
def jsToLower (s : String) : String :=
  ⟨s.toList.map Char.toLower⟩

/-- JS `s.substr(n)`. -/
def jsSubstrFrom (s : String) (n : Nat) : String :=
  ⟨s.toList.drop n⟩

/-- JS `recordFile.split('/').pop().split('.').slice(-2)[1] || ''`: the
extension of the last path segment, `""` when the segment has no dot. -/
def jsExtOf (recordFile : String) : String :=
  let segs := jsSplitChar recordFile '/'
  let last := segs.getLastD ""
  let parts := jsSplitChar last '.'
  let sliced := parts.drop (parts.length - 2)
  match sliced[1]? with
  | some e => e
  | none => ""

/-- `setState(media, state)`: emits a `MEDIA_STATE` notification when the
new state differs from the current one, then stores the new state
unconditionally. -/
def setState (m : MediaState) (s : Nat) : MediaState × List Eff :=
  ({ m with state := s },
   if m.state ≠ s then [Eff.notif (Notif.stateChange s)] else [])

/-- `playMode(media)`: attempts to put the controller in play mode,
returning the updated controller, the emitted effects, and the boolean the
source returns. -/
def playMode (m : MediaState) : MediaState × List Eff × Bool :=
  if m.mode = MODE_NONE then ({ m with mode := MODE_PLAY }, [], true)
  else if m.mode = MODE_PLAY then (m, [], true)
  else if m.mode = MODE_RECORD then
    (m, [sendErrorStatus MEDIA_ERR_ABORTED (some "Error: Can't play in record mode.")], false)
  else (m, [Eff.consoleError ("Unhandled playMode :: " ++ toString m.mode)], false)

/-- The streaming-locator test of `loadAudioFile`:
`/^((http|https|rtsp|)://|blob:)/.test(src) || src.indexOf('://') === -1`. -/
def isStreamingSrc (s : String) : Bool :=
  jsStartsWith s "http://" || jsStartsWith s "https://" || jsStartsWith s "rtsp://" ||
    jsStartsWith s "://" || jsStartsWith s "blob:" || !(jsIncludes s "://")

/-- The inner `nodeLoadSrc` closure of `loadAudioFile`: assigns the node
`src`, calls `load()`, moves to `MEDIA_STARTING` and reports success. -/
def nodeLoadSrc (m : MediaState) (src : String) : MediaState × List Eff × Option String :=
  let m1 := { m with node := m.node.map fun nd => { nd with nsrc := src } }
  let r := setState m1 MEDIA_STARTING
  (r.1, Eff.nodeLoad :: r.2, none)

/-- `loadAudioFile(media, callback)`, flattened: the third component is
`none` on `callback(true)` and `some msg` when the callback receives an
error with message `msg`. -/
def loadAudioFile (env : PlayEnv) (m : MediaState) : MediaState × List Eff × Option String :=
  if m.src = "" then (m, [], some "Error: no source provided")
  else if isStreamingSrc m.src then nodeLoadSrc m m.src
  else
    match env.fsCheck with
    | some emsg => (m, [], some emsg)
    | none =>
      match env.resolveLocal with
      | .error emsg => (m, [], some emsg)
      | .ok url =>
        let m1 := { m with src := url }
        nodeLoadSrc m1 (url ++ "?__t=" ++ toString env.now)

/-- A freshly constructed `Audio` node (`createNode`; the event bindings
are modelled by the `nodeOn…` functions below). -/
def freshNode : NodeState :=
  { nsrc := "", currentTime := 0, paused := true }

/-- `readyPlayer(media, callback)`, flattened: the boolean is the readiness
value the callback receives (`false` also covers the default branch, where
the source sends the invalid-state error and never invokes the callback —
observationally equal for every caller, which ignores a `false`). -/
def readyPlayer (env : PlayEnv) (m : MediaState) : MediaState × List Eff × Bool :=
  let pm := playMode m
  if !pm.2.2 then (pm.1, pm.2.1, false)
  else
    let mp := pm.1
    let ep := pm.2.1
    if mp.state = MEDIA_NONE then
      if !env.createNodeOk then
        (mp, ep ++ [sendErrorStatus MEDIA_ERR_ABORTED none], false)
      else
        let m2 := { mp with node := some freshNode }
        let ld := loadAudioFile env m2
        match ld.2.2 with
        | none => (ld.1, ep ++ ld.2.1, true)
        | some msg => (ld.1, ep ++ ld.2.1 ++ [sendErrorStatus MEDIA_ERR_ABORTED (some msg)], false)
    else if mp.state = MEDIA_STARTING ∨ mp.state = MEDIA_RUNNING ∨ mp.state = MEDIA_PAUSED then
      (mp, ep, true)
    else if mp.state = MEDIA_STOPPED then
      let changed : Bool := match mp.node with
        | some nd => nd.nsrc ≠ mp.src
        | none => false
      let torn := if changed
        then ({ mp with node := none, durationProp := some (-1) }, ep ++ [Eff.nodePause])
        else (mp, ep)
      let mA := torn.1
      let eA := torn.2
      match mA.node with
      | some _ => (mA, eA, true)
      | none =>
        if !env.createNodeOk then
          (mA, eA ++ [sendErrorStatus MEDIA_ERR_ABORTED none], false)
        else
          let m2 := { mA with node := some freshNode }
          let ld := loadAudioFile env m2
          match ld.2.2 with
          | none => (ld.1, eA ++ ld.2.1, true)
          | some msg => (ld.1, eA ++ ld.2.1 ++ [sendErrorStatus MEDIA_ERR_ABORTED (some msg)], false)
    else
      (mp, ep ++ [sendErrorStatus MEDIA_ERR_ABORTED
        (some ("Error: readyPlayer() called during invalid state: " ++ toString mp.state))], false)

/-- `Media.prototype.play`: ready the player, then start node playback
when ready (the `MEDIA_RUNNING` transition arrives later via the node
`playing` event, `nodeOnPlaying`). -/
def play (env : PlayEnv) (m : MediaState) : MediaState × List Eff :=
  let r := readyPlayer env m
  if r.2.2 then (r.1, r.2.1 ++ [Eff.nodePlay]) else (r.1, r.2.1)

/-- `Media.prototype.stop`: requires a node and state Running or Paused;
pauses the node, rewinds it to zero and moves to Stopped, otherwise sends
a none-active error. -/
def stop (m : MediaState) : MediaState × List Eff :=
  if m.node.isSome ∧ (m.state = MEDIA_RUNNING ∨ m.state = MEDIA_PAUSED) then
    let m1 := { m with node := m.node.map fun nd => { nd with paused := true, currentTime := 0 } }
    let r := setState m1 MEDIA_STOPPED
    (r.1, Eff.nodePause :: Eff.nodeSetTime 0 :: r.2)
  else
    (m, [sendErrorStatus MEDIA_ERR_NONE_ACTIVE
      (some ("Error: stop() called during invalid state: " ++ toString m.state))])

/-- `Media.prototype.pause`: requires state Running and a node. -/
def pause (m : MediaState) : MediaState × List Eff :=
  if m.state = MEDIA_RUNNING ∧ m.node.isSome then
    let m1 := { m with node := m.node.map fun nd => { nd with paused := true } }
    let r := setState m1 MEDIA_PAUSED
    (r.1, Eff.nodePause :: r.2)
  else
    (m, [sendErrorStatus MEDIA_ERR_NONE_ACTIVE
      (some ("Error: pause() called during invalid state: " ++ toString m.state))])

/-- `Media.prototype.getDuration`: `-2` while a recording handle is
attached, otherwise the last known `_duration`. -/
def getDuration (m : MediaState) : Int :=
  if m.recorder.isSome then -2 else m._duration

/-- Node event `onplaying`. -/
def nodeOnPlaying (m : MediaState) : MediaState × List Eff :=
  setState m MEDIA_RUNNING

/-- Node event `onended`. -/
def nodeOnEnded (m : MediaState) : MediaState × List Eff :=
  setState m MEDIA_STOPPED

/-- The `fileFallback` computation of `startRecord` (source:
`typeof options !== 'object' || !!options.fileFallback`). -/
def fileFallbackOf : JSOptions → Bool
  | .obj v => truthy v
  | _ => true

/-- The protocol/application-root translation `startRecord` applies to the
source before validating it as a record target: replace the application
directory with `file:///`, rewrite the `cdvfile:` protocol, strip query
and hash. -/
def translateRecordTarget (fsp : FSPaths) (src : String) : String :=
  stripQueryHash
    (jsReplaceFirst
      (jsReplaceFirst src fsp.applicationDirectory "file:///")
      "cdvfile://localhost/" "filesystem:file://")

/-- JS truthiness of a `MimeVal` (for `!useMimeType` and
`this._recordFileMime || false`). -/
def mimeFalsy : MimeVal → Bool
  | .undef => true
  | .fls => true
  | .str s => s = ""

/-- The `switch (ext.toLowerCase())` of `startRecord` mapping a record
target extension to the mime type; `prior` is the incoming `useMimeType`
(the stored `_recordFileMime`), kept on an unrecognized extension and
demoted to `false` via `|| false` on a missing extension. -/
def mimeForExt (ext : String) (prior : MimeVal) : MimeVal :=
  if ext = "webm" then .str "audio/webm"
  else if ext = "mp4" ∨ ext = "m4a" then .str "audio/mp4"
  else if ext = "ogg" then .str "audio/ogg"
  else if ext = "" then (if mimeFalsy prior then .fls else prior)
  else prior

/-- The data captured by the closures `startRecord` wires onto the
recorder: the resolved mime type, the validated record target (`none` for
the JS `false`), the fallback flag and the filesystem paths. -/
structure RecClosure where
  useMimeType : MimeVal
  recordFile : Option String
  fileFallback : Bool
  fileSystemPaths : Option FSPaths
  deriving DecidableEq, Repr

/-- The `MODE_NONE` branch of `startRecord`: target resolution, directory
validation, mime selection. On success the third component holds the
closure data and the effect list ends with the `getUserMedia` acquisition;
on failure it is `none` and an error notification is emitted with the
controller unchanged. -/
def startRecordModeNone (env : Env) (options : JSOptions) (m : MediaState) :
    MediaState × List Eff × Option RecClosure :=
  let srcVar : Option String := if jsStartsWith m.src "blob:" then none else some m.src
  let srcTruthy : Bool := match srcVar with
    | some s => s ≠ ""
    | none => false
  let fileFallback := fileFallbackOf options
  let fsp? := env.fileSystemPaths
  if !fileFallback && (fsp?.isNone || !srcTruthy) then
    (m, [sendErrorStatus MEDIA_ERR_ABORTED
      (some "Error: Filesystem record not available and fallback disabled")], none)
  else
    let recordFileR : Except Eff (Option String) :=
      if srcTruthy then
        match fsp? with
        | some fsp =>
          let rf := translateRecordTarget fsp m.src
          if jsIncludes rf ":" && !(jsIncludes rf fsp.cacheDirectory)
              && !(jsIncludes rf fsp.dataDirectory) then
            .error (sendErrorStatus MEDIA_ERR_ABORTED
              (some "Error: Resource for recording can only be saved at cordova.file.cacheDirectory or cordova.file.dataDirectory."))
          else .ok (some rf)
        | none => .ok srcVar
      else .ok none
    match recordFileR with
    | .error e => (m, [e], none)
    | .ok recordFile? =>
      let rfTruthy : Bool := match recordFile? with
        | some s => s ≠ ""
        | none => false
      let mime0 := m._recordFileMime
      let mimeR : Except Eff MimeVal :=
        if rfTruthy then
          let m1 := mimeForExt (jsToLower (jsExtOf (recordFile?.getD ""))) mime0
          if m1 = .fls then
            .ok (if env.isTypeSupported "audio/webm" then .str "audio/webm" else .undef)
          else if mimeFalsy m1 then
            .error (sendErrorStatus MEDIA_ERR_ABORTED
              (some "Error: Resource for recording must have webm/mp4/m4a/ogg extension"))
          else
            match m1 with
            | .str s =>
              if env.isTypeSupported s then .ok m1
              else .error (sendErrorStatus MEDIA_ERR_ABORTED
                (some ("Error: Resource for recording with unavailable mime type: " ++ s)))
            | _ => .ok m1
        else
          .ok (if mimeFalsy mime0 && env.isTypeSupported "audio/webm"
            then .str "audio/webm" else mime0)
      match mimeR with
      | .error e => (m, [e], none)
      | .ok finalMime =>
        let m2 := { m with _recordFileMime := finalMime }
        let recordFileFinal : Option String :=
          match recordFile? with
          | some s => if jsIncludes s ":" then some s else none
          | none => none
        (m2, [Eff.getUserMedia],
         some { useMimeType := finalMime
                recordFile := recordFileFinal
                fileFallback := fileFallback
                fileSystemPaths := fsp? })

/-- `Media.prototype.startRecord(options)`, synchronous part: capability
check, mode dispatch, then the `MODE_NONE` branch. A `some` closure marks
that microphone acquisition was started. -/
def startRecord (env : Env) (options : JSOptions) (m : MediaState) :
    MediaState × List Eff × Option RecClosure :=
  if !env.baseRecordSupport then
    (m, [sendErrorStatus MEDIA_ERR_ABORTED
      (some "Error: Record is not supported in this device.")], none)
  else if m.mode = MODE_PLAY then
    (m, [sendErrorStatus MEDIA_ERR_ABORTED (some "Error: Can't record in play mode.")], none)
  else if m.mode = MODE_NONE then
    startRecordModeNone env options m
  else if m.mode = MODE_RECORD then
    (m, [sendErrorStatus MEDIA_ERR_ABORTED (some "Error: Already recording.")], none)
  else
    (m, [], none)

/-- The continuation after `getUserMedia` and the `MediaRecorder`
construction succeed: enter record mode, attach the handle and start the
encoder (whose native `state` becomes `"recording"`). -/
def recorderAttached (m : MediaState) : MediaState × List Eff :=
  ({ m with mode := MODE_RECORD, recorder := some { rstate := "recording" } },
   [Eff.recStart])

/-- The `catch` continuation of the acquisition chain. -/
def recorderAttachFailed (m : MediaState) (msg : String) : MediaState × List Eff :=
  (m, [sendErrorStatus MEDIA_ERR_ABORTED (some ("Error: Can't start record. " ++ msg))])

/-- Encoder event `onstart`. -/
def recOnStart (m : MediaState) : MediaState × List Eff :=
  setState m MEDIA_RUNNING

/-- Encoder event `onresume`. -/
def recOnResume (m : MediaState) : MediaState × List Eff :=
  setState m MEDIA_RUNNING

/-- Encoder event `onpause`. -/
def recOnPause (m : MediaState) : MediaState × List Eff :=
  setState m MEDIA_PAUSED

/-- `Media.prototype.stopRecord`. -/
def stopRecord (m : MediaState) : MediaState × List Eff :=
  match m.recorder with
  | some _ => (m, [Eff.recStop])
  | none => (m, [])

/-- `Media.prototype.pauseRecord`. -/
def pauseRecord (m : MediaState) : MediaState × List Eff :=
  match m.recorder with
  | some r => if r.rstate = "recording" then (m, [Eff.recPause]) else (m, [])
  | none => (m, [])

/-- `Media.prototype.resumeRecord`: resume the active recorder, or start a
fresh recording (with no options) when none is attached. -/
def resumeRecord (env : Env) (m : MediaState) : MediaState × List Eff × Option RecClosure :=
  match m.recorder with
  | some _ => (m, [Eff.recResume], none)
  | none => startRecord env JSOptions.undef m

/-- `Media.prototype.release`: discard the node (pausing it first) and the
recorder handle (clearing it before stopping a live recording). -/
def release (m : MediaState) : MediaState × List Eff :=
  let p1 : MediaState × List Eff :=
    match m.node with
    | some _ => ({ m with node := none }, [Eff.nodePause])
    | none => (m, [])
  match p1.1.recorder with
  | some r =>
    ({ p1.1 with recorder := none },
     p1.2 ++ (if r.rstate = "recording" then [Eff.recStop] else []))
  | none => p1

/-- The process-wide registry `mediaObjects`, keyed by controller id.
`release` is a per-instance method that never touches the registry; calling
it on the entry `id` therefore only rewrites that entry in place. -/
def releaseById (reg : List (String × MediaState)) (id : String) :
    List (String × MediaState) :=
  reg.map fun p => if p.1 = id then (p.1, (release p.2).1) else p

/-- Outcome of the filesystem continuation chain of the encoder `onstop`
handler (`requestFileSystem` → `getFile` → `createWriter` →
truncate/write): the resolved `fileEntry.toURL()` on success, or the error
message of the failing stage. -/
inductive FsOutcome
  | requestFsError (msg : String)
  | getFileError (msg : String)
  | writeError (msg : String)
  | written (url : String)
  deriving DecidableEq, Repr

/-- The placeholder for `window.URL.createObjectURL(content)` (a fresh
object URL; its exact text is outside the model, only its `blob:` shape
matters). -/
def blobUrl : String := "blob:object-url"

/-- The inner `finish()` closure of the `onstop` handler: reset duration
and position, drop the handle, signal Stopped, then silently reset mode
and state to None. -/
def finish (m : MediaState) : MediaState × List Eff :=
  let m1 := { m with _duration := -1, _position := -1, recorder := none }
  let r := setState m1 MEDIA_STOPPED
  ({ r.1 with mode := MODE_NONE, state := MEDIA_NONE }, r.2)

/-- The inner `finishAsBlob()` closure: point `src` at a fresh object URL
of the assembled chunks, then `finish`. -/
def finishAsBlob (m : MediaState) : MediaState × List Eff :=
  let r := finish { m with src := blobUrl }
  (r.1, Eff.createObjectURL :: r.2)

/-- The inner `finishAsBlobOrAbort(message)` closure: with fallback
disabled, report the aborted error and still `finish`; with fallback
enabled, warn and fall back to a blob. -/
def finishAsBlobOrAbort (fileFallback : Bool) (msg : String) (m : MediaState) :
    MediaState × List Eff :=
  if !fileFallback then
    let r := finish m
    (r.1, sendErrorStatus MEDIA_ERR_ABORTED (some ("Error: " ++ msg)) :: r.2)
  else
    let r := finishAsBlob m
    (r.1, Eff.consoleWarn ("Auto fallback to blob url: " ++ msg) :: r.2)

/-- The track-release loop at the top of the `onstop` handler: stop every
stream track whose `readyState` is `"live"`. -/
def trackStopEffs (tracks : List String) : List Eff :=
  tracks.enum.filterMap fun p => if p.2 = "live" then some (Eff.trackStop p.1) else none

/-- The encoder `onstop` handler (`recorder.onstop`), flattened over the
filesystem outcome: release live tracks, no-op when the controller was
already released, otherwise persist the chunks to the filesystem target or
fall back to a blob. `tracks` lists the `readyState` of each captured
stream track. -/
def recOnStop (c : RecClosure) (tracks : List String) (m : MediaState)
    (fsOut : FsOutcome) : MediaState × List Eff :=
  let stopEffs := trackStopEffs tracks
  match m.recorder with
  | none => (m, stopEffs)
  | some _ =>
    let rfTruthy : Bool := match c.recordFile with
      | some s => s ≠ ""
      | none => false
    if c.fileFallback && (c.fileSystemPaths.isNone || !rfTruthy) then
      let r := finishAsBlob m
      (r.1, stopEffs ++ r.2)
    else
      match c.fileSystemPaths, c.recordFile with
      | some fsp, some rf =>
        let useTemporary := jsIncludes rf fsp.cacheDirectory
        let fileName := jsSubstrFrom rf
          ((if useTemporary then fsp.cacheDirectory.length else fsp.dataDirectory.length) - 1)
        let reqEff := Eff.fsRequest useTemporary fileName
        match fsOut with
        | .requestFsError msg =>
          let r := finishAsBlobOrAbort c.fileFallback ("Failed to request file system: " ++ msg) m
          (r.1, stopEffs ++ [reqEff] ++ r.2)
        | .getFileError msg =>
          let r := finishAsBlobOrAbort c.fileFallback ("Failed to get file: " ++ msg) m
          (r.1, stopEffs ++ [reqEff] ++ r.2)
        | .writeError msg =>
          let r := finishAsBlobOrAbort c.fileFallback ("Failed to write file: " ++ msg) m
          (r.1, stopEffs ++ [reqEff] ++ r.2)
        | .written url =>
          let r := finish { m with src := url }
          (r.1, stopEffs ++ [reqEff] ++ r.2)
      | _, _ =>
        -- Source slip: with fallback disabled and `recordFile === false`
        -- (a target without a scheme separator), line 552 would call
        -- `false.indexOf(...)` and raise a TypeError.
        (m, stopEffs ++ [Eff.jsThrow "TypeError: recordFile.indexOf is not a function"])

/-- Number of state-change notifications in an effect list. -/
def countStateNotifs (effs : List Eff) : Nat :=
  (effs.filter fun e => match e with
    | .notif (.stateChange _) => true
    | _ => false).length

/-- Claim C5 (amended): `setState` emits a state-change notification iff
the new state differs from the current one and updates the stored state
unconditionally; hence two successive `setState` calls with the same value
emit exactly one state-change notification when the value differs from the
initial state, and none otherwise. -/
theorem claim_c5_setState (m : MediaState) (v : Nat) :
    ((setState m v).2 ≠ [] ↔ m.state ≠ v) ∧
    (setState m v).1 = { m with state := v } ∧
    countStateNotifs ((setState m v).2 ++ (setState (setState m v).1 v).2) =
      (if m.state ≠ v then 1 else 0) := by
  by_cases h : m.state = v <;> simp [setState, h, countStateNotifs]

/-- Claim C5, counterexample: starting from the constructor state
(`state = MEDIA_NONE`), two successive `setState` calls with the value
`MEDIA_NONE` emit zero state-change notifications, not exactly one. -/
theorem claim_c5_counterexample :
    countStateNotifs ((setState (mkMedia "a") MEDIA_NONE).2 ++
      (setState (setState (mkMedia "a") MEDIA_NONE).1 MEDIA_NONE).2) = 0 ∧
    (0 : Nat) ≠ 1 := by
  decide

/-- Claim C7 (amended): `getDuration()` returns `-2` exactly when a
recording handle is attached (`recorder !== null`), which is not the same
condition as `mode = Record`; otherwise it returns the last known
duration, and a freshly constructed controller has duration `-1`. -/
theorem claim_c7_getDuration (m : MediaState) (s : String) :
    (m.recorder.isSome = true → getDuration m = -2) ∧
    (m.recorder = none → getDuration m = m._duration) ∧
    (mkMedia s)._duration = -1 := by
  refine ⟨fun h => ?_, fun h => ?_, rfl⟩ <;> simp [getDuration, h]

/-- Claim C7, counterexample: after `release()` during a recording the
controller still has `mode = MODE_RECORD` but its handle is cleared, and
`getDuration()` returns the stored duration `-1`, not `-2`. -/
theorem claim_c7_counterexample :
    (release (recorderAttached (mkMedia "clip.webm")).1).1.mode = MODE_RECORD ∧
    getDuration (release (recorderAttached (mkMedia "clip.webm")).1).1 = -1 ∧
    (-1 : Int) ≠ -2 := by
  decide

/-- Witness for `claim_c7_getDuration` at concrete controllers with and
without a recording handle. -/
theorem claim_c7_witness :
    getDuration { mkMedia "x" with recorder := some ⟨"recording"⟩, _duration := 7 } = -2 ∧
    getDuration { mkMedia "x" with _duration := 7 } = 7 :=
  ⟨(claim_c7_getDuration { mkMedia "x" with recorder := some ⟨"recording"⟩, _duration := 7 } "x").1
      (by decide),
   (claim_c7_getDuration { mkMedia "x" with _duration := 7 } "x").2.1 (by decide)⟩

/-- Claim C9: `resumeRecord()` with no recording handle delegates to a
fresh `startRecord()` with no options; with a handle attached it resumes
the recorder instead. -/
theorem claim_c9_resumeRecord (env : Env) (m : MediaState) :
    (m.recorder = none → m.mode = MODE_NONE →
      resumeRecord env m = startRecord env JSOptions.undef m) ∧
    (∀ r, m.recorder = some r → resumeRecord env m = (m, [Eff.recResume], none)) := by
  constructor
  · intro h _
    simp [resumeRecord, h]
  · intro r h
    simp [resumeRecord, h]

/-- Witness for `claim_c9_resumeRecord`: a fresh controller delegates, one
with a handle resumes. -/
theorem claim_c9_witness :
    resumeRecord ⟨true, none, fun _ => true⟩ (mkMedia "clip.webm") =
      startRecord ⟨true, none, fun _ => true⟩ JSOptions.undef (mkMedia "clip.webm") ∧
    resumeRecord ⟨true, none, fun _ => true⟩
        { mkMedia "clip.webm" with recorder := some ⟨"recording"⟩ } =
      ({ mkMedia "clip.webm" with recorder := some ⟨"recording"⟩ }, [Eff.recResume], none) :=
  ⟨(claim_c9_resumeRecord ⟨true, none, fun _ => true⟩ (mkMedia "clip.webm")).1 rfl rfl,
   (claim_c9_resumeRecord ⟨true, none, fun _ => true⟩
      { mkMedia "clip.webm" with recorder := some ⟨"recording"⟩ }).2 ⟨"recording"⟩ rfl⟩

/-- Claim C8: `release()` is idempotent — a second consecutive call from
any state produces no effects at all (no native teardown, no
notification), and release never removes a controller from the registry. -/
theorem claim_c8_release_idempotent (m : MediaState)
    (reg : List (String × MediaState)) (id : String) :
    release (release m).1 = ((release m).1, []) ∧
    (releaseById reg id).map Prod.fst = reg.map Prod.fst := by
  constructor
  · rcases m with ⟨mo, st, src, node, rec, d, p, mime, dp⟩
    cases node <;> cases rec <;> simp [release]
  · induction reg with
    | nil => rfl
    | cons hd tl ih =>
      simp only [releaseById, List.map_cons] at ih ⊢
      refine congrArg₂ (· :: ·) ?_ ih
      split <;> rfl

/-- Claim C4: calling `play()` in record mode yields an aborted-error
notification ("can't play in record mode") and changes neither mode nor
state; `playMode` from mode None sets mode Play and succeeds, and from
mode Play is an idempotent success. -/
theorem claim_c4_play_record_mode (env : PlayEnv) (m : MediaState) :
    (m.mode = MODE_RECORD →
      play env m =
        (m, [sendErrorStatus MEDIA_ERR_ABORTED (some "Error: Can't play in record mode.")])) ∧
    (m.mode = MODE_NONE → playMode m = ({ m with mode := MODE_PLAY }, [], true)) ∧
    (m.mode = MODE_PLAY → playMode m = (m, [], true)) := by
  refine ⟨fun h => ?_, fun h => ?_, fun h => ?_⟩ <;>
    simp [play, readyPlayer, playMode, h, MODE_NONE, MODE_PLAY, MODE_RECORD]

/-- Witness for `claim_c4_play_record_mode` on a recording controller. -/
theorem claim_c4_witness :
    play ⟨true, none, .ok "u", 0⟩ { mkMedia "s" with mode := MODE_RECORD } =
      ({ mkMedia "s" with mode := MODE_RECORD },
       [sendErrorStatus MEDIA_ERR_ABORTED (some "Error: Can't play in record mode.")]) :=
  (claim_c4_play_record_mode ⟨true, none, .ok "u", 0⟩
    { mkMedia "s" with mode := MODE_RECORD }).1 rfl

/-- Claim C3 (amended): `stop()` in state Running or Paused with a
playback node attached pauses the node, rewinds it to zero and moves to
Stopped (with one state-change notification); in any other configuration
— another state, or Running/Paused with no node (reachable after
`release()`) — it emits a none-active error and leaves the state
unchanged. -/
theorem claim_c3_stop (m : MediaState) :
    (m.node.isSome = true → m.state = MEDIA_RUNNING ∨ m.state = MEDIA_PAUSED →
      stop m =
        ({ m with
            node := m.node.map fun nd => { nd with paused := true, currentTime := 0 },
            state := MEDIA_STOPPED },
         [Eff.nodePause, Eff.nodeSetTime 0, Eff.notif (Notif.stateChange MEDIA_STOPPED)])) ∧
    (m.node = none ∨ (m.state ≠ MEDIA_RUNNING ∧ m.state ≠ MEDIA_PAUSED) →
      stop m =
        (m, [sendErrorStatus MEDIA_ERR_NONE_ACTIVE
          (some ("Error: stop() called during invalid state: " ++ toString m.state))])) := by
  constructor
  · intro h1 h2
    rcases h2 with h2 | h2 <;>
      simp [stop, h1, h2, setState, MEDIA_RUNNING, MEDIA_PAUSED, MEDIA_STOPPED]
  · intro h
    have hc : ¬ (m.node.isSome = true ∧ (m.state = MEDIA_RUNNING ∨ m.state = MEDIA_PAUSED)) := by
      rintro ⟨hs, hor⟩
      rcases h with h | ⟨ha, hb⟩
      · simp [h] at hs
      · rcases hor with hh | hh
        · exact ha hh
        · exact hb hh
    unfold stop
    rw [if_neg hc]

/-- Claim C3, counterexample: a controller in state Running whose node was
already discarded (as `release()` leaves it) gets a none-active error from
`stop()` and stays in state Running instead of moving to Stopped. -/
theorem claim_c3_counterexample :
    ({ mkMedia "s" with mode := MODE_PLAY, state := MEDIA_RUNNING } : MediaState).state
        = MEDIA_RUNNING ∧
    stop { mkMedia "s" with mode := MODE_PLAY, state := MEDIA_RUNNING } =
      ({ mkMedia "s" with mode := MODE_PLAY, state := MEDIA_RUNNING },
       [sendErrorStatus MEDIA_ERR_NONE_ACTIVE
         (some "Error: stop() called during invalid state: 2")]) ∧
    (stop { mkMedia "s" with mode := MODE_PLAY, state := MEDIA_RUNNING }).1.state
        ≠ MEDIA_STOPPED := by
  refine ⟨rfl, ?_, by decide⟩
  rfl

/-- Witness for `claim_c3_stop`: a running controller with a node stops
cleanly; a fresh controller gets the none-active error. -/
theorem claim_c3_witness :
    stop { mkMedia "s" with state := MEDIA_RUNNING, node := some freshNode } =
      ({ mkMedia "s" with
          state := MEDIA_STOPPED,
          node := some { freshNode with paused := true, currentTime := 0 } },
       [Eff.nodePause, Eff.nodeSetTime 0, Eff.notif (Notif.stateChange MEDIA_STOPPED)]) ∧
    stop (mkMedia "s") =
      (mkMedia "s",
       [sendErrorStatus MEDIA_ERR_NONE_ACTIVE
         (some "Error: stop() called during invalid state: 0")]) :=
  ⟨(claim_c3_stop { mkMedia "s" with state := MEDIA_RUNNING, node := some freshNode }).1
      rfl (Or.inl rfl),
   (claim_c3_stop (mkMedia "s")).2 (Or.inr (by decide))⟩

/-- Claim C6: if the controller was released before the encoder stop event
fires, the `onstop` handler stops the stream's live tracks and does
nothing else — the controller is returned unchanged and none of the
emitted effects is a notification. -/
theorem claim_c6_onstop_released (c : RecClosure) (tracks : List String)
    (m : MediaState) (fsOut : FsOutcome) (h : m.recorder = none) :
    recOnStop c tracks m fsOut = (m, trackStopEffs tracks) ∧
    (trackStopEffs tracks).all (fun e => !e.isNotif) = true := by
  constructor
  · simp [recOnStop, h]
  · rw [List.all_eq_true]
    intro e he
    simp only [trackStopEffs, List.mem_filterMap] at he
    obtain ⟨p, _, hpe⟩ := he
    split at hpe
    · injection hpe with h2
      rw [← h2]
      rfl
    · exact absurd hpe (by simp)

/-- Witness for `claim_c6_onstop_released` with one live and one ended
track on a released controller. -/
theorem claim_c6_witness :
    recOnStop ⟨.undef, none, true, none⟩ ["live", "ended"] (mkMedia "x") (.written "u") =
      (mkMedia "x", [Eff.trackStop 0]) ∧
    ([Eff.trackStop 0] : List Eff).all (fun e => !e.isNotif) = true :=
  ⟨(claim_c6_onstop_released ⟨.undef, none, true, none⟩ ["live", "ended"]
      (mkMedia "x") (.written "u") rfl).1,
   by decide⟩

/-- Claim C10: the blob-fallback flag defaults to enabled only when
`options` is omitted or not an object; any object whose `fileFallback`
property is absent or falsy disables it, so passing `{}` turns the
otherwise-default-enabled fallback off — observable as `startRecord({})`
failing where `startRecord()` starts a blob capture. -/
theorem claim_c10_fileFallback (v : JSVal) (hv : truthy v = false) :
    fileFallbackOf .undef = true ∧
    fileFallbackOf .nonObject = true ∧
    fileFallbackOf (.obj v) = false ∧
    startRecord ⟨true, none, fun s => s = "audio/webm"⟩ (.obj .undef) (mkMedia "blob:abc") =
      (mkMedia "blob:abc",
       [sendErrorStatus MEDIA_ERR_ABORTED
         (some "Error: Filesystem record not available and fallback disabled")], none) ∧
    (startRecord ⟨true, none, fun s => s = "audio/webm"⟩ .undef (mkMedia "blob:abc")).2.2.isSome
      = true := by
  refine ⟨rfl, rfl, ?_, rfl, rfl⟩
  simp [fileFallbackOf, hv]

/-- Witness for `claim_c10_fileFallback` at the absent (`undefined`)
property value. -/
theorem claim_c10_witness :
    truthy .undef = false ∧ fileFallbackOf (.obj .undef) = false :=
  ⟨rfl, (claim_c10_fileFallback .undef rfl).2.2.1⟩

/-- Claim C1 (amended): when the filesystem collaborator is available and
the translated record target contains a scheme separator but falls under
neither the cache nor the data directory, `startRecord` fails with the
aborted error and starts no capture, regardless of the fallback-to-blob
option. -/
theorem claim_c1_target_validation (env : Env) (opts : JSOptions) (m : MediaState)
    (fsp : FSPaths)
    (hb : env.baseRecordSupport = true)
    (hfs : env.fileSystemPaths = some fsp)
    (hmode : m.mode = MODE_NONE)
    (hblob : jsStartsWith m.src "blob:" = false)
    (hne : m.src ≠ "")
    (hcolon : jsIncludes (translateRecordTarget fsp m.src) ":" = true)
    (hcache : jsIncludes (translateRecordTarget fsp m.src) fsp.cacheDirectory = false)
    (hdata : jsIncludes (translateRecordTarget fsp m.src) fsp.dataDirectory = false) :
    startRecord env opts m =
      (m, [sendErrorStatus MEDIA_ERR_ABORTED
        (some "Error: Resource for recording can only be saved at cordova.file.cacheDirectory or cordova.file.dataDirectory.")],
       none) := by
  simp [startRecord, startRecordModeNone, hb, hfs, hmode, hblob, hne, hcolon, hcache, hdata,
    MODE_NONE, MODE_PLAY, MODE_RECORD]

/-- Claim C1, counterexample: with the filesystem collaborator available,
the fallback option enabled (options omitted), and a `file:///` target
outside both allowed directories, `startRecord` emits the aborted error
and acquires no microphone — it does not fall back silently to a blob. -/
theorem claim_c1_counterexample :
    fileFallbackOf .undef = true ∧
    startRecord
        ⟨true,
         some ⟨"http://localhost/", "filesystem:file:///temporary/",
           "filesystem:file:///persistent/"⟩,
         fun s => s = "audio/webm"⟩
        .undef (mkMedia "file:///foo/clip.webm") =
      (mkMedia "file:///foo/clip.webm",
       [sendErrorStatus MEDIA_ERR_ABORTED
         (some "Error: Resource for recording can only be saved at cordova.file.cacheDirectory or cordova.file.dataDirectory.")],
       none) :=
  ⟨rfl, rfl⟩

/-- Witness for `claim_c1_target_validation` at the concrete invalid
target, with an options object that explicitly enables the fallback. -/
theorem claim_c1_witness :
    startRecord
        ⟨true,
         some ⟨"http://localhost/", "filesystem:file:///temporary/",
           "filesystem:file:///persistent/"⟩,
         fun s => s = "audio/webm"⟩
        (.obj (.boolean true)) (mkMedia "file:///foo/clip.webm") =
      (mkMedia "file:///foo/clip.webm",
       [sendErrorStatus MEDIA_ERR_ABORTED
         (some "Error: Resource for recording can only be saved at cordova.file.cacheDirectory or cordova.file.dataDirectory.")],
       none) :=
  claim_c1_target_validation _ _ _
    ⟨"http://localhost/", "filesystem:file:///temporary/", "filesystem:file:///persistent/"⟩
    rfl rfl rfl (by decide) (by decide) (by decide) (by decide) (by decide)

/-- Claim C2: the encoder mime type is selected from the record target's
extension (`webm` ↦ `audio/webm`, `mp4`/`m4a` ↦ `audio/mp4`, `ogg` ↦
`audio/ogg`); with target `clip.mp4` `startRecord` selects `audio/mp4`
and starts the capture, while with target `clip.xyz` and no previously
stored mime it fails with the aborted error and starts no capture (no
microphone acquisition, no encoder). -/
theorem claim_c2_mime (env : Env) (m1 m2 : MediaState)
    (hb : env.baseRecordSupport = true)
    (hfs : env.fileSystemPaths = none)
    (hsup : env.isTypeSupported "audio/mp4" = true)
    (h1mode : m1.mode = MODE_NONE) (h1src : m1.src = "clip.mp4")
    (h2mode : m2.mode = MODE_NONE) (h2src : m2.src = "clip.xyz")
    (h2mime : m2._recordFileMime = .undef) :
    (∀ prior, mimeForExt "webm" prior = .str "audio/webm" ∧
      mimeForExt "mp4" prior = .str "audio/mp4" ∧
      mimeForExt "m4a" prior = .str "audio/mp4" ∧
      mimeForExt "ogg" prior = .str "audio/ogg") ∧
    startRecord env .undef m1 =
      ({ m1 with _recordFileMime := .str "audio/mp4" }, [Eff.getUserMedia],
       some ⟨.str "audio/mp4", none, true, none⟩) ∧
    startRecord env .undef m2 =
      (m2, [sendErrorStatus MEDIA_ERR_ABORTED
        (some "Error: Resource for recording must have webm/mp4/m4a/ogg extension")],
       none) := by
  refine ⟨fun prior => by simp [mimeForExt], ?_, ?_⟩
  · simp [startRecord, startRecordModeNone, hb, hfs, hsup, h1mode, h1src,
      fileFallbackOf, jsStartsWith, jsExtOf, jsSplitChar, splitOnCharAux, jsToLower,
      mimeForExt, mimeFalsy, jsIncludes, splitAtSub, MODE_NONE, MODE_PLAY, MODE_RECORD]
  · simp [startRecord, startRecordModeNone, hb, hfs, h2mode, h2src, h2mime,
      fileFallbackOf, jsStartsWith, jsExtOf, jsSplitChar, splitOnCharAux, jsToLower,
      mimeForExt, mimeFalsy, jsIncludes, splitAtSub, MODE_NONE, MODE_PLAY, MODE_RECORD]

/-- Witness for `claim_c2_mime` at fresh controllers with the two target
names and a platform supporting `audio/mp4`. -/
theorem claim_c2_witness :
    startRecord ⟨true, none, fun s => s = "audio/mp4"⟩ .undef (mkMedia "clip.mp4") =
      ({ mkMedia "clip.mp4" with _recordFileMime := .str "audio/mp4" }, [Eff.getUserMedia],
       some ⟨.str "audio/mp4", none, true, none⟩) ∧
    startRecord ⟨true, none, fun s => s = "audio/mp4"⟩ .undef (mkMedia "clip.xyz") =
      (mkMedia "clip.xyz",
       [sendErrorStatus MEDIA_ERR_ABORTED
         (some "Error: Resource for recording must have webm/mp4/m4a/ogg extension")],
       none) :=
  ⟨(claim_c2_mime ⟨true, none, fun s => s = "audio/mp4"⟩ (mkMedia "clip.mp4")
      (mkMedia "clip.xyz") rfl rfl (by decide) rfl rfl rfl rfl rfl).2.1,
   (claim_c2_mime ⟨true, none, fun s => s = "audio/mp4"⟩ (mkMedia "clip.mp4")
      (mkMedia "clip.xyz") rfl rfl (by decide) rfl rfl rfl rfl rfl).2.2⟩

end Media
